import Mathlib

/-!
Shallow embedding of the camera client in `aio_iotccsdk/camera.py`
(class `CameraClient`) and proofs about it.

Conventions:
* Python exceptions are modelled by `Except PyErr`: a raising statement
  yields `.error`, normal control flow yields `.ok`.
* The mutable attributes of a `CameraClient` instance (together with the
  provider's `ip_address`, which the url helpers read) are a `CameraState`
  record; each method becomes a function from the state (and the device
  response it consumes) to a new state or an error.
* Device responses are passed in as explicit arguments: the embedded method
  receives the response the transport would have produced for its request.
-/

/-- Python exception kinds raised by the embedded code: `ValueError` from
`list.index` / `str.rindex`, `IndexError` from subscripts, `TypeError` from
`in` on `None`, `EOFError` with its message, and `UnboundLocalError` from
reading a local variable that was never assigned. -/
inductive PyErr where
  | valueError
  | indexError
  | typeError
  | eofError (msg : String)
  | unboundLocalError (name : String)
  deriving DecidableEq, Repr

/-- Module-level constant `DOCKER_IP_PREFIX = "172.17"` from the source. -/
def DOCKER_IP_PREFIX : String := "172.17"

/-- Module-level constant `NULL_IP = "0.0.0.0"` from the source. -/
def NULL_IP : String := "0.0.0.0"

/-- Module-level constant `LOOPBACK_IP = "127.0.0.1"` from the source. -/
def LOOPBACK_IP : String := "127.0.0.1"

/-- Occurrence test on character lists: `pat` occurs in the list when it is a
prefix of some suffix. -/
def subOccurs (pat : List Char) : List Char → Bool
  | [] => decide (pat = [])
  | c :: cs => pat.isPrefixOf (c :: cs) || subOccurs pat cs

/-- Python's substring test `pat in s` for strings. -/
def strContains (s pat : String) : Bool :=
  subOccurs pat.toList s.toList

/-- Python `str.lower()`, character by character (the tokens compared against
are plain ASCII). -/
def pyLower (s : String) : String :=
  String.mk (s.toList.map Char.toLower)

/-- Python `list.index`: position of the first occurrence of `a`, raising
`ValueError` when `a` is absent. -/
def pyIndex [DecidableEq α] : List α → α → Except PyErr Nat
  | [], _ => .error .valueError
  | x :: xs, a => if x = a then .ok 0 else (pyIndex xs a).map (· + 1)

/-- Python list subscript `xs[i]` for a non-negative index (the only form the
source uses): `IndexError` when out of range. -/
def pyGet (xs : List α) (i : Nat) : Except PyErr α :=
  match xs.get? i with
  | some a => .ok a
  | none => .error .indexError

/-- Suffix of a character list starting at its last colon (colon included):
the tail is searched first so that a later colon wins; `none` when no colon
occurs. -/
def suffixFromLastColon : List Char → Option (List Char)
  | [] => none
  | c :: cs =>
    match suffixFromLastColon cs with
    | some sfx => some sfx
    | none => if c = ':' then some (c :: cs) else none

/-- Python `url[url.rindex(":"):]`: the suffix of `s` from its final colon,
colon included; `str.rindex` raises `ValueError` when `s` has no colon. -/
def rindexColonSuffix (s : String) : Except PyErr String :=
  match suffixFromLastColon s.toList with
  | some sfx => .ok (String.mk sfx)
  | none => .error .valueError

/-- Mutable attributes of a `CameraClient` instance (`__init__`), plus the
provider's `ip_address` read by `_get_preview_info` / `_get_vam_info`.
`preview_url` and `vam_url` are `Option String` because those methods store
Python `None` when the response carries no url field. -/
structure CameraState where
  ip_address : String
  preview_running : Bool
  preview_url : Option String
  vam_running : Bool
  vam_url : Option String
  record_running : Bool
  resolutions : List String
  encodetype : List String
  bitrates : List String
  framerates : List Int
  cur_resolution : String
  cur_codec : String
  cur_bitrate : String
  cur_framerate : Int
  display_out : Int
  deriving DecidableEq, Repr

/-- State built by `CameraClient.__init__` for a provider at `ip`. -/
def initState (ip : String) : CameraState where
  ip_address := ip
  preview_running := false
  preview_url := some ""
  vam_running := false
  vam_url := some ""
  record_running := false
  resolutions := []
  encodetype := []
  bitrates := []
  framerates := []
  cur_resolution := ""
  cur_codec := ""
  cur_bitrate := ""
  cur_framerate := 0
  display_out := 0

/-- Device response to `GET /preview` or `GET /vam`: an optional `url` field
and the boolean `status`. -/
structure InfoResponse where
  url : Option String
  status : Bool
  deriving DecidableEq, Repr

/-- Url rewrite shared by `_get_preview_info` and `_get_vam_info`: first
`e_idx = url.rindex(":")` (raising on a colon-free url), then the raw url is
kept whenever the provider's ip contains the substring `"172.17"`, and is
otherwise rebuilt as `rtsp://` + ip + the suffix from the final colon. -/
def resolveStreamUrl (ip raw : String) : Except PyErr String :=
  match rindexColonSuffix raw with
  | .error e => .error e
  | .ok sfx =>
    if strContains ip DOCKER_IP_PREFIX then .ok raw
    else .ok ("rtsp://" ++ ip ++ sfx)

/-- `CameraClient._get_preview_info` state effect: stores the resolved
preview url (or `None` when the response has no url field) and takes
`preview_running` from the response status. -/
def applyPreviewInfo (s : CameraState) (resp : InfoResponse) : Except PyErr CameraState :=
  match resp.url with
  | none => .ok { s with preview_url := none, preview_running := resp.status }
  | some raw =>
    match resolveStreamUrl s.ip_address raw with
    | .error e => .error e
    | .ok u => .ok { s with preview_url := some u, preview_running := resp.status }

/-- `CameraClient._get_vam_info` state effect: stores the resolved vam url
(or `None` when the response has no url field) and takes `vam_running` from
the response status. -/
def applyVamInfo (s : CameraState) (resp : InfoResponse) : Except PyErr CameraState :=
  match resp.url with
  | none => .ok { s with vam_url := none, vam_running := resp.status }
  | some raw =>
    match resolveStreamUrl s.ip_address raw with
    | .error e => .error e
    | .ok u => .ok { s with vam_url := some u, vam_running := resp.status }

/-- Fixed lookup of `cur_resolution` to preview dimensions at the top of
`get_inferences`: the source's if/elif chain assigns `preview_width` and
`preview_height` only for the four known strings; `none` models the chain
assigning nothing, so the later read of the locals raises. -/
def resolutionDims (r : String) : Option (Nat × Nat) :=
  if r = "4K" then some (3840, 2160)
  else if r = "1080P" then some (1920, 1080)
  else if r = "720P" then some (1280, 720)
  else if r = "480P" then some (640, 480)
  else none

/-- Body of the `try` block in `get_inferences`, up to the url handed to
`inference_iterator.start`: when `vam_url == ""` a `_get_vam_info` refresh
runs against `vamResp`; then the source evaluates
`if NULL_IP in self.vam_url: self.vam_url.replace(NULL_IP, LOOPBACK_IP)` —
`str.replace` returns a fresh string that is never re-assigned, so the url
handed on is the stored one unchanged (the discarded computation is kept
here as a dead `let`).  When the stored url is `None`, `NULL_IP in None`
raises `TypeError`. -/
def get_inferences_url (s : CameraState) (vamResp : InfoResponse) :
    Except PyErr (CameraState × String) :=
  match (if s.vam_url = some "" then applyVamInfo s vamResp else .ok s) with
  | .error e => .error e
  | .ok s1 =>
    match s1.vam_url with
    | none => .error .typeError
    | some u =>
      let _ := if strContains u NULL_IP then u.replace NULL_IP LOOPBACK_IP else u
      .ok (s1, u)

/-- `CameraClient.get_inferences`, up to the call
`inference_iterator.start(self.vam_url)`: the two `EOFError` preconditions,
the dimension lookup feeding `VideoInferenceIterator(preview_width,
preview_height)`, then the `try` body.  The result carries the state after
any vam refresh, the iterator dimensions, and the url handed to the stream
decoder. -/
def get_inferences (s : CameraState) (vamResp : InfoResponse) :
    Except PyErr (CameraState × (Nat × Nat) × String) :=
  if s.preview_running = false then .error (.eofError "preview not started")
  else if s.vam_running = false then .error (.eofError "VAM not started")
  else
    match resolutionDims s.cur_resolution with
    | none => .error (.unboundLocalError "preview_width")
    | some dims =>
      match get_inferences_url s vamResp with
      | .error e => .error e
      | .ok (s1, u) => .ok (s1, dims, u)

/-- Token handling shared by the four toggle methods
(`set_preview_state`, `set_analytics_state`, `set_recording_state`,
`set_overlay_state`): `some` for a recognised case-insensitive on/off token;
`none` when the else branch only logs and the local `status` is never
assigned. -/
def parseSwitchStatus (state : String) : Option Bool :=
  if pyLower state = "on" then some true
  else if pyLower state = "off" then some false
  else none

/-- Request posted by a toggle method: its path and payload. -/
structure PostRequest where
  path : String
  switchStatus : Bool
  vamconfig : Option String
  deriving DecidableEq, Repr

/-- Request stage of `set_preview_state`: after the token if/elif the source
unconditionally builds `payload = {"switchStatus": status}`; with an
unrecognised token the local `status` was never assigned and that line raises
`UnboundLocalError`, so no request reaches the device. -/
def set_preview_state_request (state : String) : Except PyErr PostRequest :=
  match parseSwitchStatus state with
  | some st => .ok ⟨"/preview", st, none⟩
  | none => .error (.unboundLocalError "status")

/-- Request stage of `set_analytics_state` (payload also carries
`"vamconfig": "MD"`); an unrecognised token raises `UnboundLocalError` at the
payload line, before any request. -/
def set_analytics_state_request (state : String) : Except PyErr PostRequest :=
  match parseSwitchStatus state with
  | some st => .ok ⟨"/vam", st, some "MD"⟩
  | none => .error (.unboundLocalError "status")

/-- Request stage of `set_recording_state`; an unrecognised token raises
`UnboundLocalError` at the payload line, before any request. -/
def set_recording_state_request (state : String) : Except PyErr PostRequest :=
  match parseSwitchStatus state with
  | some st => .ok ⟨"/recording", st, none⟩
  | none => .error (.unboundLocalError "status")

/-- Request stage of `set_overlay_state`; an unrecognised token raises
`UnboundLocalError` at the payload line, before any request. -/
def set_overlay_state_request (state : String) : Except PyErr PostRequest :=
  match parseSwitchStatus state with
  | some st => .ok ⟨"/overlay", st, none⟩
  | none => .error (.unboundLocalError "status")

/-- `CameraClient.set_recording_state`: posts the switch request and then runs
`self.record_running = response["status"]; return self.record_running` — the
flag is assigned the response status itself, independent of the on/off
target. -/
def set_recording_state (s : CameraState) (state : String) (respStatus : Bool) :
    Except PyErr (CameraState × Bool) :=
  match set_recording_state_request state with
  | .error e => .error e
  | .ok _ => .ok ({ s with record_running := respStatus }, respStatus)

/-- Arguments of `configure_preview` (Python keyword arguments, all defaulting
to `None`). -/
structure PreviewRequest where
  resolution : Option String
  encode : Option String
  bitrate : Option String
  framerate : Option Int
  display_out : Option Int
  deriving DecidableEq, Repr

/-- Resolved parallel-list indices submitted to `POST /video` by
`configure_preview`, plus the resolved `displayOut` value. -/
structure Indices where
  res : Nat
  enc : Nat
  bit : Nat
  fps : Nat
  dispOut : Int
  deriving DecidableEq, Repr

/-- One field of the `configure_preview` index resolution, e.g.
`if resolution and self.resolutions and resolution in self.resolutions:
res = self.resolutions.index(resolution) else:
res = self.resolutions.index(self.cur_resolution)`.
`truthy` is Python truthiness of the requested value (non-empty string,
non-zero int); a `None` request skips straight to the fallback since
`None` is falsy. -/
def resolveField [DecidableEq α] (truthy : α → Bool) (req : Option α)
    (caps : List α) (cur : α) : Except PyErr Nat :=
  match req with
  | some v =>
    if truthy v && !caps.isEmpty && decide (v ∈ caps)
    then pyIndex caps v
    else pyIndex caps cur
  | none => pyIndex caps cur

/-- `display_out` validation in `configure_preview`: any value outside
`[0, 1]` (including the `None` default) logs an error and falls back to the
current `display_out`. -/
def resolveDisplayOut (req : Option Int) (cur : Int) : Int :=
  match req with
  | some 0 => 0
  | some 1 => 1
  | _ => cur

/-- Index-resolution prologue of `configure_preview` (everything before the
`POST /video` request): the four capability-list lookups in source order,
each able to raise `ValueError`, then the `display_out` validation. -/
def resolveIndices (s : CameraState) (r : PreviewRequest) : Except PyErr Indices :=
  match resolveField (fun v => v ≠ "") r.resolution s.resolutions s.cur_resolution with
  | .error e => .error e
  | .ok res =>
  match resolveField (fun v => v ≠ "") r.encode s.encodetype s.cur_codec with
  | .error e => .error e
  | .ok enc =>
  match resolveField (fun v => v ≠ "") r.bitrate s.bitrates s.cur_bitrate with
  | .error e => .error e
  | .ok bit =>
  match resolveField (fun v => v ≠ 0) r.framerate s.framerates s.cur_framerate with
  | .error e => .error e
  | .ok fps => .ok ⟨res, enc, bit, fps, resolveDisplayOut r.display_out s.display_out⟩

/-- `CameraClient.configure_preview`: resolve the indices (raising before any
device request on a failed lookup), post them, and on a true response status
re-derive each mirrored field from the submitted index into its capability
list; on a false status leave the state untouched.  `respStatus` is the
`status` of the device's response to the posted payload. -/
def configure_preview (s : CameraState) (r : PreviewRequest) (respStatus : Bool) :
    Except PyErr (CameraState × Bool) :=
  match resolveIndices s r with
  | .error e => .error e
  | .ok idx =>
    if respStatus then
      match pyGet s.resolutions idx.res with
      | .error e => .error e
      | .ok newRes =>
      match pyGet s.encodetype idx.enc with
      | .error e => .error e
      | .ok newEnc =>
      match pyGet s.bitrates idx.bit with
      | .error e => .error e
      | .ok newBit =>
      match pyGet s.framerates idx.fps with
      | .error e => .error e
      | .ok newFps =>
        .ok ({ s with cur_resolution := newRes, cur_codec := newEnc,
                      cur_bitrate := newBit, cur_framerate := newFps,
                      display_out := idx.dispOut }, true)
    else .ok (s, false)

/-- Device response to `POST /captureimage`: the `Error` sentinel field and
the `Data` field with the encoded image bytes. -/
structure CaptureResponse where
  errorField : String
  dataField : String
  deriving DecidableEq, Repr

/-- `CameraClient.captureimage`: a response whose `Error` field differs from
`"none"` is logged and yields `None`; otherwise the response's `Data` is
returned.  The result is always `.ok`: device-reported failure never raises. -/
def captureimage (resp : CaptureResponse) : Except PyErr (Option String) :=
  if resp.errorField ≠ "none" then .ok none
  else .ok (some resp.dataField)

/-- Outcome of the body of a scoped acquisition: normal completion (which also
covers an early exit from the scope, since leaving the `with` block early
resumes the generator normally) or an exception with its description. -/
inductive Outcome (α : Type) where
  | ok (a : α)
  | exn (e : String)
  deriving DecidableEq, Repr

/-- Observable collaborator calls made on the exit paths of the two scoped
acquisitions. -/
inductive ExitAction where
  | logout
  | stopIterator
  | logException (e : String)
  deriving DecidableEq, Repr

/-- Exit-path behaviour of `CameraClient.connect`'s try/except/finally around
its `yield`: an exception from the body is logged by the `except` clause and
re-raised, and the `finally` clause awaits `ipc_provider.logout()` on every
path.  The result pairs the ordered collaborator calls with the propagated
outcome. -/
def connectScope (body : Outcome α) : List ExitAction × Outcome α :=
  match body with
  | .ok a => ([.logout], .ok a)
  | .exn e => ([.logException e, .logout], .exn e)

/-- Exit-path behaviour of `get_inferences`' try/except/finally around its
`yield`: an exception from the body is logged and re-raised, and the `finally`
clause calls `inference_iterator.stop()` on every path. -/
def inferenceScope (body : Outcome α) : List ExitAction × Outcome α :=
  match body with
  | .ok a => ([.stopIterator], .ok a)
  | .exn e => ([.logException e, .stopIterator], .exn e)

deriving instance DecidableEq for Except

/-- A populated client state (capability lists filled, current values members
of them) used to instantiate the theorems on concrete data. -/
def demoState : CameraState :=
  { initState "1.2.3.4" with
    resolutions := ["1080P", "720P"], cur_resolution := "720P",
    encodetype := ["HEVC"], cur_codec := "HEVC",
    bitrates := ["1.5Mbps"], cur_bitrate := "1.5Mbps",
    framerates := [30, 24], cur_framerate := 24 }

/-- A client state with preview and vam running whose stored vam url carries
the null-address sentinel. -/
def nullIpState : CameraState :=
  { initState "1.2.3.4" with
    preview_running := true, vam_running := true,
    cur_resolution := "1080P", vam_url := some "rtsp://0.0.0.0:8554/vam" }

/-- A `configure_preview` call with no requested fields. -/
def demoReqNone : PreviewRequest := ⟨none, none, none, none, none⟩

/-- Helper: a successful `pyIndex` lookup points at the element looked up. -/
theorem pyIndex_get [DecidableEq α] (xs : List α) (a : α) :
    ∀ i, pyIndex xs a = .ok i → xs.get? i = some a := by
  induction xs with
  | nil => intro i h; simp [pyIndex] at h
  | cons x xs ih =>
    intro i h
    by_cases hx : x = a
    · simp [pyIndex, hx] at h
      simp [← h, hx]
    · cases hj : pyIndex xs a with
      | error e => simp [pyIndex, hx, hj, Except.map] at h
      | ok j =>
        simp [pyIndex, hx, hj, Except.map] at h
        subst h
        simpa using ih j hj

/-- Helper: `pyIndex` raises `ValueError` exactly as `list.index` does when
the element is absent. -/
theorem pyIndex_not_mem [DecidableEq α] (xs : List α) (a : α) (h : a ∉ xs) :
    pyIndex xs a = .error .valueError := by
  induction xs with
  | nil => rfl
  | cons x xs ih =>
    rw [List.mem_cons] at h
    push_neg at h
    have hx : ¬x = a := fun e => h.1 e.symm
    simp [pyIndex, hx, ih h.2, Except.map]

/-- Helper: `pyIndex` succeeds on a member. -/
theorem pyIndex_of_mem [DecidableEq α] (xs : List α) (a : α) (h : a ∈ xs) :
    ∃ i, pyIndex xs a = .ok i := by
  induction xs with
  | nil => cases h
  | cons x xs ih =>
    by_cases hx : x = a
    · exact ⟨0, by simp [pyIndex, hx]⟩
    · have hm : a ∈ xs := by
        rcases List.mem_cons.mp h with h1 | h2
        · exact absurd h1.symm hx
        · exact h2
      rcases ih hm with ⟨j, hj⟩
      exact ⟨j + 1, by simp [pyIndex, hx, hj, Except.map]⟩

/-- Helper: a field resolution either yields an index or raises `ValueError`. -/
theorem resolveField_cases [DecidableEq α] (t : α → Bool) (req : Option α)
    (caps : List α) (cur : α) :
    (∃ i, resolveField t req caps cur = .ok i) ∨
    resolveField t req caps cur = .error .valueError := by
  have hp : ∀ b : α, (∃ i, pyIndex caps b = .ok i) ∨ pyIndex caps b = .error .valueError := by
    intro b
    by_cases hb : b ∈ caps
    · exact Or.inl (pyIndex_of_mem caps b hb)
    · exact Or.inr (pyIndex_not_mem caps b hb)
  cases req with
  | none => exact hp cur
  | some v =>
    by_cases hc : (t v && !caps.isEmpty && decide (v ∈ caps)) = true
    · simpa [resolveField, hc] using hp v
    · simpa [resolveField, hc] using hp cur

/-- Helper: when the requested value is absent or not a member of the
capability list, the field resolution is exactly the lookup of the current
value. -/
theorem resolveField_fallback [DecidableEq α] (t : α → Bool) (req : Option α)
    (caps : List α) (cur : α) (h : ∀ v ∈ caps, req ≠ some v) :
    resolveField t req caps cur = pyIndex caps cur := by
  cases req with
  | none => rfl
  | some v =>
    have hv : v ∉ caps := fun hm => h v hm rfl
    simp [resolveField, decide_eq_false hv]

/-- Helper: inversion of a successful index resolution — each of the four
field lookups in the `configure_preview` prologue succeeded and produced the
corresponding component of the submitted indices. -/
theorem resolveIndices_ok_inv (s : CameraState) (r : PreviewRequest)
    (idx : Indices) (h : resolveIndices s r = .ok idx) :
    resolveField (fun v => v ≠ "") r.resolution s.resolutions s.cur_resolution = .ok idx.res ∧
    resolveField (fun v => v ≠ "") r.encode s.encodetype s.cur_codec = .ok idx.enc ∧
    resolveField (fun v => v ≠ "") r.bitrate s.bitrates s.cur_bitrate = .ok idx.bit ∧
    resolveField (fun v => v ≠ 0) r.framerate s.framerates s.cur_framerate = .ok idx.fps := by
  cases h1 : resolveField (fun v => v ≠ "") r.resolution s.resolutions s.cur_resolution with
  | error e =>
    simp only [resolveIndices] at h
    rw [h1] at h
    simp at h
  | ok i1 =>
  cases h2 : resolveField (fun v => v ≠ "") r.encode s.encodetype s.cur_codec with
  | error e =>
    simp only [resolveIndices] at h
    rw [h1, h2] at h
    simp at h
  | ok i2 =>
  cases h3 : resolveField (fun v => v ≠ "") r.bitrate s.bitrates s.cur_bitrate with
  | error e =>
    simp only [resolveIndices] at h
    rw [h1, h2, h3] at h
    simp at h
  | ok i3 =>
  cases h4 : resolveField (fun v => v ≠ 0) r.framerate s.framerates s.cur_framerate with
  | error e =>
    simp only [resolveIndices] at h
    rw [h1, h2, h3, h4] at h
    simp at h
  | ok i4 =>
    simp only [resolveIndices] at h
    rw [h1, h2, h3, h4] at h
    simp only [Except.ok.injEq] at h
    subst h
    exact ⟨rfl, rfl, rfl, rfl⟩

/-- Claim C2: in `configure_preview`, per field and independently of what is
requested for the other fields: whenever the submitted indices `idx` were
resolved, each of resolution, encode, bitrate and framerate whose requested
value is absent (`None`) or not a member of its capability list contributes
the `list.index` of the *current* value of that field as its submitted index
— an index that points at the current value, never a fixed default or
zero. -/
theorem configure_preview_fallback_to_current (s : CameraState) (r : PreviewRequest)
    (idx : Indices) (h : resolveIndices s r = .ok idx) :
    ((∀ v ∈ s.resolutions, r.resolution ≠ some v) →
      pyIndex s.resolutions s.cur_resolution = .ok idx.res ∧
      s.resolutions.get? idx.res = some s.cur_resolution) ∧
    ((∀ v ∈ s.encodetype, r.encode ≠ some v) →
      pyIndex s.encodetype s.cur_codec = .ok idx.enc ∧
      s.encodetype.get? idx.enc = some s.cur_codec) ∧
    ((∀ v ∈ s.bitrates, r.bitrate ≠ some v) →
      pyIndex s.bitrates s.cur_bitrate = .ok idx.bit ∧
      s.bitrates.get? idx.bit = some s.cur_bitrate) ∧
    ((∀ v ∈ s.framerates, r.framerate ≠ some v) →
      pyIndex s.framerates s.cur_framerate = .ok idx.fps ∧
      s.framerates.get? idx.fps = some s.cur_framerate) := by
  obtain ⟨f1, f2, f3, f4⟩ := resolveIndices_ok_inv s r idx h
  refine ⟨fun hr => ?_, fun hr => ?_, fun hr => ?_, fun hr => ?_⟩
  · have hcur := (resolveField_fallback _ _ _ _ hr).symm.trans f1
    exact ⟨hcur, pyIndex_get _ _ _ hcur⟩
  · have hcur := (resolveField_fallback _ _ _ _ hr).symm.trans f2
    exact ⟨hcur, pyIndex_get _ _ _ hcur⟩
  · have hcur := (resolveField_fallback _ _ _ _ hr).symm.trans f3
    exact ⟨hcur, pyIndex_get _ _ _ hcur⟩
  · have hcur := (resolveField_fallback _ _ _ _ hr).symm.trans f4
    exact ⟨hcur, pyIndex_get _ _ _ hcur⟩

/-- Witness for C2 at a mixed concrete call: the resolution is requested with
a valid member ("1080P", resolved to its own index 0) while encode is absent,
bitrate is falsy and framerate is not a member — and each of those three
falls back to the index of its current value (0, 0 and 1), not to a
default. -/
theorem configure_preview_fallback_to_current_witness :
    (pyIndex demoState.encodetype demoState.cur_codec = .ok 0 ∧
      demoState.encodetype.get? 0 = some demoState.cur_codec) ∧
    (pyIndex demoState.framerates demoState.cur_framerate = .ok 1 ∧
      demoState.framerates.get? 1 = some demoState.cur_framerate) :=
  ⟨(configure_preview_fallback_to_current demoState
      ⟨some "1080P", none, some "", some 999, some 1⟩ ⟨0, 0, 0, 1, 1⟩
      (by decide)).2.1 (by decide),
   (configure_preview_fallback_to_current demoState
      ⟨some "1080P", none, some "", some 999, some 1⟩ ⟨0, 0, 0, 1, 1⟩
      (by decide)).2.2.2 (by decide)⟩

/-- Claim C3: in `configure_preview`, the mirrored fields `cur_resolution`,
`cur_codec`, `cur_bitrate`, `cur_framerate` and `display_out` are untouched
when the device response's status is false (the state comes back unchanged),
and after a true status they are re-derived by subscripting the capability
lists at the submitted indices — not by a fresh refresh. -/
theorem configure_preview_mirror_after_ack (s : CameraState) (r : PreviewRequest)
    (idx : Indices) (h : resolveIndices s r = .ok idx)
    (a b c : String) (d : Int)
    (ha : s.resolutions.get? idx.res = some a)
    (hb : s.encodetype.get? idx.enc = some b)
    (hc : s.bitrates.get? idx.bit = some c)
    (hd : s.framerates.get? idx.fps = some d) :
    configure_preview s r false = .ok (s, false) ∧
    configure_preview s r true =
      .ok ({ s with cur_resolution := a, cur_codec := b, cur_bitrate := c,
                    cur_framerate := d, display_out := idx.dispOut }, true) := by
  constructor
  · simp [configure_preview, h]
  · simp only [List.get?_eq_getElem?] at ha hb hc hd
    simp [configure_preview, h, pyGet, ha, hb, hc, hd]

/-- Witness for C3 at a concrete state: a false status leaves the state
unchanged, and a true status re-derives the mirror from the submitted
indices. -/
theorem configure_preview_mirror_after_ack_witness :
    configure_preview demoState demoReqNone false = .ok (demoState, false) ∧
    configure_preview demoState demoReqNone true =
      .ok ({ demoState with cur_resolution := "720P", cur_codec := "HEVC",
                            cur_bitrate := "1.5Mbps", cur_framerate := 24,
                            display_out := 0 }, true) :=
  configure_preview_mirror_after_ack demoState demoReqNone ⟨1, 0, 0, 1, 0⟩
    (by decide) "720P" "HEVC" "1.5Mbps" 24 (by decide) (by decide) (by decide) (by decide)

/-- Claim C10: when some field's capability list does not contain that
field's current value and the field is not requested with a valid member
value, `configure_preview` raises `ValueError` out of the `list.index`
fallback; the error is the same for every possible device response status,
i.e. it happens in the index-resolution prologue, before the `POST /video`
request is built or sent, rather than returning false. -/
theorem configure_preview_raises_on_missing_current (s : CameraState) (r : PreviewRequest)
    (h : (s.cur_resolution ∉ s.resolutions ∧ ∀ v ∈ s.resolutions, r.resolution ≠ some v)
       ∨ (s.cur_codec ∉ s.encodetype ∧ ∀ v ∈ s.encodetype, r.encode ≠ some v)
       ∨ (s.cur_bitrate ∉ s.bitrates ∧ ∀ v ∈ s.bitrates, r.bitrate ≠ some v)
       ∨ (s.cur_framerate ∉ s.framerates ∧ ∀ v ∈ s.framerates, r.framerate ≠ some v)) :
    ∀ b, configure_preview s r b = .error .valueError := by
  intro b
  have hmain : resolveIndices s r = .error .valueError := by
    rcases h with ⟨hcur, hreq⟩ | ⟨hcur, hreq⟩ | ⟨hcur, hreq⟩ | ⟨hcur, hreq⟩
    · have hbad := (resolveField_fallback (fun v => v ≠ "") r.resolution s.resolutions
        s.cur_resolution hreq).trans (pyIndex_not_mem _ _ hcur)
      simp only [resolveIndices, hbad]
    · have hbad := (resolveField_fallback (fun v => v ≠ "") r.encode s.encodetype
        s.cur_codec hreq).trans (pyIndex_not_mem _ _ hcur)
      rcases resolveField_cases (fun v => v ≠ "") r.resolution s.resolutions s.cur_resolution
        with ⟨i1, hi1⟩ | hi1 <;>
      simp only [resolveIndices, hi1, hbad]
    · have hbad := (resolveField_fallback (fun v => v ≠ "") r.bitrate s.bitrates
        s.cur_bitrate hreq).trans (pyIndex_not_mem _ _ hcur)
      rcases resolveField_cases (fun v => v ≠ "") r.resolution s.resolutions s.cur_resolution
        with ⟨i1, hi1⟩ | hi1 <;>
      rcases resolveField_cases (fun v => v ≠ "") r.encode s.encodetype s.cur_codec
        with ⟨i2, hi2⟩ | hi2 <;>
      simp only [resolveIndices, hi1, hi2, hbad]
    · have hbad := (resolveField_fallback (fun v => v ≠ 0) r.framerate s.framerates
        s.cur_framerate hreq).trans (pyIndex_not_mem _ _ hcur)
      rcases resolveField_cases (fun v => v ≠ "") r.resolution s.resolutions s.cur_resolution
        with ⟨i1, hi1⟩ | hi1 <;>
      rcases resolveField_cases (fun v => v ≠ "") r.encode s.encodetype s.cur_codec
        with ⟨i2, hi2⟩ | hi2 <;>
      rcases resolveField_cases (fun v => v ≠ "") r.bitrate s.bitrates s.cur_bitrate
        with ⟨i3, hi3⟩ | hi3 <;>
      simp only [resolveIndices, hi1, hi2, hi3, hbad]
  simp [configure_preview, hmain]

/-- Witness for C10 at the freshly-constructed state: all capability lists
are empty, so with no requested fields the very first fallback lookup raises
`ValueError` whatever the device would have answered. -/
theorem configure_preview_raises_on_missing_current_witness :
    configure_preview (initState "10.0.0.42") demoReqNone true = .error .valueError :=
  configure_preview_raises_on_missing_current (initState "10.0.0.42") demoReqNone
    (Or.inl ⟨by decide, by decide⟩) true

/-- Claim C5: `get_inferences` raises `EOFError("preview not started")`
whenever `preview_running` is false — for every possible analytics response,
i.e. before any device endpoint is contacted — and the distinct
`EOFError("VAM not started")` whenever preview runs but `vam_running` is
false, likewise without consulting the device; and it reaches the stream
decoder (an `.ok` result) only when both flags are true. -/
theorem get_inferences_preconditions (s : CameraState) :
    (s.preview_running = false →
      ∀ resp, get_inferences s resp = .error (.eofError "preview not started")) ∧
    (s.preview_running = true → s.vam_running = false →
      ∀ resp, get_inferences s resp = .error (.eofError "VAM not started")) ∧
    (∀ resp out, get_inferences s resp = .ok out →
      s.preview_running = true ∧ s.vam_running = true) := by
  refine ⟨?_, ?_, ?_⟩
  · intro h resp
    simp [get_inferences, h]
  · intro h1 h2 resp
    simp [get_inferences, h1, h2]
  · intro resp out hout
    cases hp : s.preview_running
    · simp [get_inferences, hp] at hout
    · cases hv : s.vam_running
      · simp [get_inferences, hp, hv] at hout
      · exact ⟨rfl, rfl⟩

/-- Witness for C5: on the freshly-constructed state (preview off) the call
fails with the preview message whatever the analytics endpoint would answer,
and with preview on but vam off it fails with the distinct vam message. -/
theorem get_inferences_preconditions_witness :
    get_inferences (initState "1.2.3.4") ⟨none, true⟩
      = .error (.eofError "preview not started") ∧
    get_inferences { initState "1.2.3.4" with preview_running := true } ⟨none, true⟩
      = .error (.eofError "VAM not started") :=
  ⟨(get_inferences_preconditions (initState "1.2.3.4")).1 rfl ⟨none, true⟩,
   (get_inferences_preconditions { initState "1.2.3.4" with preview_running := true }).2.1
     rfl rfl ⟨none, true⟩⟩

/-- Claim C1 (code bug): with preview and vam running and a stored vam url
containing the null-address sentinel `"0.0.0.0"`, the url handed to
`inference_iterator.start` still contains `"0.0.0.0"` — the source calls
`self.vam_url.replace(NULL_IP, LOOPBACK_IP)` but discards the returned
string, so the claimed substitution to `"127.0.0.1"` never reaches the
stream decoder. -/
theorem get_inferences_null_ip_not_replaced :
    strContains "rtsp://0.0.0.0:8554/vam" NULL_IP = true ∧
    (get_inferences nullIpState ⟨none, true⟩).map (fun t => t.2.2)
      = .ok "rtsp://0.0.0.0:8554/vam" ∧
    (get_inferences nullIpState ⟨none, true⟩).map (fun t => t.2.2)
      ≠ .ok "rtsp://127.0.0.1:8554/vam" := by
  refine ⟨by decide, by decide, by decide⟩

/-- Claim C8: `captureimage` turns a response whose `Error` field differs
from `"none"` into a `None` result after logging, and otherwise returns the
response's `Data`; either way the result is an `.ok` value — device-reported
failure is signalled through the returned value and never raised. -/
theorem captureimage_error_sentinel (resp : CaptureResponse) :
    (resp.errorField ≠ "none" → captureimage resp = .ok none) ∧
    (resp.errorField = "none" → captureimage resp = .ok (some resp.dataField)) ∧
    ∃ v, captureimage resp = .ok v := by
  refine ⟨fun h => by simp [captureimage, h], fun h => by simp [captureimage, h], ?_⟩
  by_cases h : resp.errorField = "none"
  · exact ⟨some resp.dataField, by simp [captureimage, h]⟩
  · exact ⟨none, by simp [captureimage, h]⟩

/-- Witness for C8: a response with `Error = "failure"` yields `None`
without raising, and one with `Error = "none"` yields its `Data`. -/
theorem captureimage_error_sentinel_witness :
    captureimage ⟨"failure", "imagebytes"⟩ = .ok none ∧
    captureimage ⟨"none", "imagebytes"⟩ = .ok (some "imagebytes") :=
  ⟨(captureimage_error_sentinel ⟨"failure", "imagebytes"⟩).1 (by decide),
   (captureimage_error_sentinel ⟨"none", "imagebytes"⟩).2.1 rfl⟩

/-- Claim C9: on every exit of the two scoped acquisitions the teardown runs —
`connect`'s scope always performs `ipc_provider.logout()` and
`get_inferences`' scope always performs `inference_iterator.stop()` — the
propagated outcome is the body's own (re-raised unchanged, never swallowed),
and on the exception path the exception is logged before the teardown. -/
theorem scoped_teardown_on_every_exit (α : Type) (body : Outcome α) :
    ExitAction.logout ∈ (connectScope body).1 ∧
    ExitAction.stopIterator ∈ (inferenceScope body).1 ∧
    (connectScope body).2 = body ∧
    (inferenceScope body).2 = body ∧
    (∀ e, body = .exn e →
      connectScope body = ([.logException e, .logout], .exn e) ∧
      inferenceScope body = ([.logException e, .stopIterator], .exn e)) := by
  cases body with
  | ok a => simp [connectScope, inferenceScope]
  | exn e => simp [connectScope, inferenceScope]

/-- Witness for C9: a body failing with `"boom"` is logged, torn down and
re-raised unchanged by both scopes. -/
theorem scoped_teardown_on_every_exit_witness :
    connectScope (Outcome.exn "boom" : Outcome Nat)
      = ([.logException "boom", .logout], .exn "boom") ∧
    inferenceScope (Outcome.exn "boom" : Outcome Nat)
      = ([.logException "boom", .stopIterator], .exn "boom") :=
  (scoped_teardown_on_every_exit Nat (Outcome.exn "boom")).2.2.2.2 "boom" rfl

/-- Claim C7 (code bug): `set_recording_state` assigns
`self.record_running = response["status"]` with no regard to the on/off
target: a successful `"off"` toggle (status true) leaves `record_running`
true, and a failed `"on"` toggle (status false) overwrites a previously true
flag with false instead of keeping the prior value. -/
theorem set_recording_state_raw_status_bug :
    set_recording_state (initState "1.2.3.4") "off" true
      = .ok ({ initState "1.2.3.4" with record_running := true }, true) ∧
    set_recording_state { initState "1.2.3.4" with record_running := true } "on" false
      = .ok (initState "1.2.3.4", false) := by
  refine ⟨by decide, by decide⟩

/-- Counterexample to claim C4 as stated: the device ip `"10.172.17.5"` does
not fall within the 172.17 bridge-network prefix range (it is a 10.x.x.x
address), so the claim requires the stored url to be rebuilt as
`rtsp://10.172.17.5:8554/live`; the source instead tests substring
containment (`DOCKER_IP_PREFIX not in ip`), finds `"172.17"` inside the ip,
and keeps the raw url unmodified. -/
theorem resolve_bridge_range_counterexample :
    "172.17".toList.isPrefixOf "10.172.17.5".toList = false ∧
    resolveStreamUrl "10.172.17.5" "rtsp://10.0.0.5:8554/live"
      = .ok "rtsp://10.0.0.5:8554/live" ∧
    resolveStreamUrl "10.172.17.5" "rtsp://10.0.0.5:8554/live"
      ≠ .ok "rtsp://10.172.17.5:8554/live" := by
  refine ⟨by decide, by decide, by decide⟩

/-- Claim C4 (amended): the passthrough condition is that the device ip
contains the substring `"172.17"` anywhere, not that it lies in the 172.17
prefix range.  With a final-colon suffix `sfx` of the raw url: when the ip
contains `"172.17"` the stored url is the raw device-reported url
unmodified, otherwise it is `rtsp://` + ip + `sfx`; `_get_preview_info` and
`_get_vam_info` store exactly this resolution together with the response's
status, and the claim's two worked examples hold. -/
theorem resolveStreamUrl_rewrite (ip raw sfx : String)
    (h : rindexColonSuffix raw = .ok sfx) :
    (strContains ip DOCKER_IP_PREFIX = true → resolveStreamUrl ip raw = .ok raw) ∧
    (strContains ip DOCKER_IP_PREFIX = false →
      resolveStreamUrl ip raw = .ok ("rtsp://" ++ ip ++ sfx)) ∧
    (∀ (s : CameraState) (st : Bool), s.ip_address = ip →
      applyPreviewInfo s ⟨some raw, st⟩ =
        (resolveStreamUrl ip raw).map
          (fun u => { s with preview_url := some u, preview_running := st })) ∧
    (∀ (s : CameraState) (st : Bool), s.ip_address = ip →
      applyVamInfo s ⟨some raw, st⟩ =
        (resolveStreamUrl ip raw).map
          (fun u => { s with vam_url := some u, vam_running := st })) ∧
    resolveStreamUrl "203.0.113.9" "rtsp://10.0.0.5:8554/live"
      = .ok "rtsp://203.0.113.9:8554/live" ∧
    resolveStreamUrl "172.17.0.2" "rtsp://10.0.0.5:8554/live"
      = .ok "rtsp://10.0.0.5:8554/live" := by
  refine ⟨fun hc => ?_, fun hc => ?_, ?_, ?_, by decide, by decide⟩
  · simp [resolveStreamUrl, h, hc]
  · simp [resolveStreamUrl, h, hc]
  · intro s st hip
    subst hip
    cases hu : resolveStreamUrl s.ip_address raw with
    | error e => simp [applyPreviewInfo, hu, Except.map]
    | ok u => simp [applyPreviewInfo, hu, Except.map]
  · intro s st hip
    subst hip
    cases hu : resolveStreamUrl s.ip_address raw with
    | error e => simp [applyVamInfo, hu, Except.map]
    | ok u => simp [applyVamInfo, hu, Except.map]

/-- Witness for the amended C4: `"203.0.113.9"` has no `"172.17"` substring,
so the url is rebuilt from the device ip and the suffix from the final
colon. -/
theorem resolveStreamUrl_rewrite_witness :
    resolveStreamUrl "203.0.113.9" "rtsp://10.0.0.5:8554/live"
      = .ok ("rtsp://" ++ "203.0.113.9" ++ ":8554/live") :=
  (resolveStreamUrl_rewrite "203.0.113.9" "rtsp://10.0.0.5:8554/live" ":8554/live"
    (by decide)).2.1 (by decide)

/-- Counterexample to claim C6 as stated: on the token `"blah"` (neither
"on" nor "off" in any case), each of the four toggle methods logs the error
and then evaluates `payload = {"switchStatus": status}` with the local
`status` never assigned, raising `UnboundLocalError` — no switch request with
any boolean target is posted, contradicting the claim that the request is
still sent. -/
theorem toggle_invalid_token_counterexample :
    parseSwitchStatus "blah" = none ∧
    set_preview_state_request "blah" = .error (.unboundLocalError "status") ∧
    set_analytics_state_request "blah" = .error (.unboundLocalError "status") ∧
    set_recording_state_request "blah" = .error (.unboundLocalError "status") ∧
    set_overlay_state_request "blah" = .error (.unboundLocalError "status") ∧
    set_recording_state (initState "1.2.3.4") "blah" true
      = .error (.unboundLocalError "status") := by
  refine ⟨by decide, by decide, by decide, by decide, by decide, by decide⟩

/-- Claim C6 (amended): for every token that is not case-insensitive "on" or
"off", each toggle method logs the error and then aborts with
`UnboundLocalError` while building the payload, before any switch request is
posted to the device; in particular `set_recording_state` fails the same way
from every state, touching neither the device nor `record_running`. -/
theorem toggle_invalid_token_aborts (state : String)
    (h : parseSwitchStatus state = none) :
    set_preview_state_request state = .error (.unboundLocalError "status") ∧
    set_analytics_state_request state = .error (.unboundLocalError "status") ∧
    set_recording_state_request state = .error (.unboundLocalError "status") ∧
    set_overlay_state_request state = .error (.unboundLocalError "status") ∧
    ∀ (s : CameraState) (b : Bool),
      set_recording_state s state b = .error (.unboundLocalError "status") := by
  refine ⟨?_, ?_, ?_, ?_, fun s b => ?_⟩ <;>
    simp [set_preview_state_request, set_analytics_state_request,
          set_recording_state_request, set_overlay_state_request,
          set_recording_state, h]

/-- Witness for the amended C6 at the token `"start"`. -/
theorem toggle_invalid_token_aborts_witness :
    set_overlay_state_request "start" = .error (.unboundLocalError "status") :=
  (toggle_invalid_token_aborts "start" (by decide)).2.2.2.1
